import Mathlib

/-
Verification of the OmniRecord overlay/compositing core.

Shallow embedding of:
  - src/types.ts, src/constants.ts        (data model)
  - src/hooks/useDraggableResizable.tsx   (overlay geometry controller)
  - src/unnamed/part_000                  (VideoCompositor, the composite renderer)
  - src/App.tsx                           (recording session: chunk buffer, stop handler,
                                           config updates)

Numbers are modelled as rationals: the arithmetic the claims exercise
(addition, subtraction, min, max, division by a positive zoom factor)
is exact on the inputs involved.
-/

namespace OmniRecord

/-- Shape of the camera overlay, from src/types.ts (`circle` or `rectangle`). -/
inductive Shape
  | circle
  | rectangle
deriving DecidableEq

/-- Top-left offset of the overlay in container pixels, from src/types.ts. -/
structure Position where
  x : ℚ
  y : ℚ
deriving DecidableEq

/-- Overlay dimensions in container pixels, from src/types.ts. -/
structure Size where
  width : ℚ
  height : ℚ
deriving DecidableEq

/-- The shared overlay configuration record, from src/types.ts. -/
structure OverlayConfig where
  shape : Shape
  position : Position
  size : Size
  isVisible : Bool
  borderColor : String
  borderWidth : ℚ
  zoomLevel : ℚ
deriving DecidableEq

/-- Minimum overlay dimension, from src/constants.ts line 13. -/
def MIN_SIZE : ℚ := 100

/-- Maximum overlay dimension, from src/constants.ts line 14. -/
def MAX_SIZE : ℚ := 600

namespace Math

/-- JavaScript `Math.max` on two numbers (computable on rationals). -/
def max (a b : ℚ) : ℚ := if a ≤ b then b else a

/-- JavaScript `Math.min` on two numbers (computable on rationals). -/
def min (a b : ℚ) : ℚ := if a ≤ b then a else b

theorem max_eq (a b : ℚ) : Math.max a b = Max.max a b := (max_def a b).symm

theorem min_eq (a b : ℚ) : Math.min a b = Min.min a b := (min_def a b).symm

end Math

/-- A bounding rectangle as returned by `getBoundingClientRect` (the fields the
hook reads: left, top, width, height). -/
structure Rect where
  left : ℚ
  top : ℚ
  width : ℚ
  height : ℚ
deriving DecidableEq

/-- The pointer coordinates of a mouse event (the fields the hook reads). -/
structure MouseEvent where
  clientX : ℚ
  clientY : ℚ
deriving DecidableEq

/-- The mutable gesture state held in `stateRef` by useDraggableResizable
(src/hooks/useDraggableResizable.tsx lines 23-30). -/
structure GestureState where
  position : Position
  size : Size
  isDragging : Bool
  isResizing : Bool
  dragOffset : Position
  containerRect : Option Rect
deriving DecidableEq

/-- One invocation of `handleMouseMove`
(src/hooks/useDraggableResizable.tsx lines 43-98).

`currentContainerRect` models `containerRef.current?.getBoundingClientRect()`:
`none` when the container element is unavailable.  The result is `none` when
the handler returns without publishing (no gesture active, or no container
rect obtainable); otherwise it is `some` of the new gesture state together
with the `(position, size)` pair passed to `onUpdate`. -/
def handleMouseMove (state : GestureState) (currentContainerRect : Option Rect)
    (e : MouseEvent) : Option (GestureState × Position × Size) :=
  if !state.isDragging && !state.isResizing then none
  else
    match state.containerRect.orElse (fun _ => currentContainerRect) with
    | none => none
    | some containerRect =>
      let state := { state with containerRect := some containerRect }
      if state.isDragging then
        let newX := e.clientX - state.dragOffset.x
        let newY := e.clientY - state.dragOffset.y
        let newX := Math.max 0 (Math.min newX (containerRect.width - state.size.width))
        let newY := Math.max 0 (Math.min newY (containerRect.height - state.size.height))
        let newPos : Position := ⟨newX, newY⟩
        some ({ state with position := newPos }, newPos, state.size)
      else
        let absoluteLeft := containerRect.left + state.position.x
        let absoluteTop := containerRect.top + state.position.y
        let newWidth := e.clientX - absoluteLeft
        let newHeight := e.clientY - absoluteTop
        let newWidth := Math.max MIN_SIZE (Math.min newWidth MAX_SIZE)
        let newHeight := Math.max MIN_SIZE (Math.min newHeight MAX_SIZE)
        let newWidth :=
          if state.position.x + newWidth > containerRect.width then
            containerRect.width - state.position.x
          else newWidth
        let newHeight :=
          if state.position.y + newHeight > containerRect.height then
            containerRect.height - state.position.y
          else newHeight
        let newSize : Size := ⟨newWidth, newHeight⟩
        some ({ state with size := newSize }, state.position, newSize)

/-- The 800x450 container rectangle of the spec example. -/
def exampleRect : Rect := ⟨0, 0, 800, 450⟩

/-- Concrete drag state used by the spec example: container 800x450,
overlay at (700,400), size 200x200, zero drag offset so the effective
pointer position equals the raw pointer position. -/
def dragExampleState : GestureState :=
  { position := ⟨700, 400⟩
    size := ⟨200, 200⟩
    isDragging := true
    isResizing := false
    dragOffset := ⟨0, 0⟩
    containerRect := some exampleRect }

/-- Concrete resize state: container 800x450, overlay at (100,100). -/
def resizeExampleState : GestureState :=
  { position := ⟨100, 100⟩
    size := ⟨200, 200⟩
    isDragging := false
    isResizing := true
    dragOffset := ⟨0, 0⟩
    containerRect := some exampleRect }

lemma le_mathClamp (lo a hi : ℚ) : lo ≤ Math.max lo (Math.min a hi) := by
  rw [Math.max_eq]; exact le_max_left _ _

lemma mathClamp_le (lo a hi : ℚ) (h : lo ≤ hi) : Math.max lo (Math.min a hi) ≤ hi := by
  rw [Math.max_eq, Math.min_eq]; exact max_le h (min_le_right _ _)

/-- C1: every drag update clamps the published position into
`[0, containerWidth - width] x [0, containerHeight - height]` whatever the
raw pointer coordinates are (provided the overlay fits in the cached
container), and the drag of the spec example (container 800x450, overlay
200x200, effective pointer (1000,1000)) publishes the clamped position
(600,250). -/
theorem drag_position_clamped :
    (∀ (st : GestureState) (cur : Option Rect) (e : MouseEvent) (rect : Rect)
        (st' : GestureState) (pos : Position) (sz : Size),
        st.isDragging = true →
        st.containerRect = some rect →
        st.size.width ≤ rect.width →
        st.size.height ≤ rect.height →
        handleMouseMove st cur e = some (st', pos, sz) →
        sz = st.size ∧
        0 ≤ pos.x ∧ pos.x ≤ rect.width - st.size.width ∧
        0 ≤ pos.y ∧ pos.y ≤ rect.height - st.size.height) ∧
    handleMouseMove dragExampleState none ⟨1000, 1000⟩ =
      some ({ dragExampleState with position := ⟨600, 250⟩ }, ⟨600, 250⟩, ⟨200, 200⟩) := by
  constructor
  · intro st cur e rect st' pos sz hd hcr hw hh hmm
    simp only [handleMouseMove, hd, hcr, Option.orElse, Bool.not_true, Bool.false_and,
      Bool.false_eq_true, if_false, if_true, Option.some.injEq, Prod.mk.injEq] at hmm
    obtain ⟨-, hpos, hsz⟩ := hmm
    refine ⟨hsz.symm, ?_, ?_, ?_, ?_⟩ <;> rw [← hpos]
    · exact le_mathClamp _ _ _
    · exact mathClamp_le _ _ _ (sub_nonneg.mpr hw)
    · exact le_mathClamp _ _ _
    · exact mathClamp_le _ _ _ (sub_nonneg.mpr hh)
  · norm_num [handleMouseMove, dragExampleState, exampleRect, Math.max, Math.min, Option.orElse]

/-- Witness for C1 at the spec example input. -/
theorem drag_position_clamped_witness :
    (⟨200, 200⟩ : Size) = dragExampleState.size ∧
    (0 : ℚ) ≤ (600 : ℚ) ∧
    (600 : ℚ) ≤ exampleRect.width - dragExampleState.size.width ∧
    (0 : ℚ) ≤ (250 : ℚ) ∧
    (250 : ℚ) ≤ exampleRect.height - dragExampleState.size.height :=
  drag_position_clamped.1 dragExampleState none ⟨1000, 1000⟩ exampleRect
    { dragExampleState with position := ⟨600, 250⟩ } ⟨600, 250⟩ ⟨200, 200⟩
    rfl rfl (by norm_num [dragExampleState, exampleRect])
    (by norm_num [dragExampleState, exampleRect])
    drag_position_clamped.2

/-- C2: every resize update publishes a size with both dimensions in
`[MIN_SIZE, MAX_SIZE]` and with `position + size` inside the cached
container bounds, and it never moves the position.  The container-fit
bound on the lower end relies on the documented position invariant
`position + MIN_SIZE ≤ containerBounds` holding when the move is
processed. -/
theorem resize_size_clamped :
    ∀ (st : GestureState) (cur : Option Rect) (e : MouseEvent) (rect : Rect)
      (st' : GestureState) (pos : Position) (sz : Size),
      st.isDragging = false →
      st.isResizing = true →
      st.containerRect = some rect →
      st.position.x + MIN_SIZE ≤ rect.width →
      st.position.y + MIN_SIZE ≤ rect.height →
      handleMouseMove st cur e = some (st', pos, sz) →
      pos = st.position ∧ st'.position = st.position ∧
      MIN_SIZE ≤ sz.width ∧ sz.width ≤ MAX_SIZE ∧
      MIN_SIZE ≤ sz.height ∧ sz.height ≤ MAX_SIZE ∧
      st.position.x + sz.width ≤ rect.width ∧
      st.position.y + sz.height ≤ rect.height := by
  intro st cur e rect st' pos sz hd hr hcr hx hy hmm
  have hminmax : MIN_SIZE ≤ MAX_SIZE := by norm_num [MIN_SIZE, MAX_SIZE]
  simp only [handleMouseMove, hd, hr, hcr, Option.orElse, Bool.not_true, Bool.not_false,
    Bool.true_and, Bool.false_eq_true, if_false, if_true, Option.some.injEq,
    Prod.mk.injEq] at hmm
  obtain ⟨hst', hpos, hsz⟩ := hmm
  refine ⟨hpos.symm, ?_, ?_, ?_, ?_, ?_, ?_, ?_⟩
  · rw [← hst']
  · rw [← hsz]
    simp only
    split_ifs with h
    · linarith [hx]
    · exact le_mathClamp _ _ _
  · rw [← hsz]
    simp only
    split_ifs with h
    · have := le_mathClamp MIN_SIZE (e.clientX - (rect.left + st.position.x)) MAX_SIZE
      have h2 := mathClamp_le MIN_SIZE (e.clientX - (rect.left + st.position.x)) MAX_SIZE hminmax
      linarith
    · exact mathClamp_le _ _ _ hminmax
  · rw [← hsz]
    simp only
    split_ifs with h
    · linarith [hy]
    · exact le_mathClamp _ _ _
  · rw [← hsz]
    simp only
    split_ifs with h
    · have := le_mathClamp MIN_SIZE (e.clientY - (rect.top + st.position.y)) MAX_SIZE
      have h2 := mathClamp_le MIN_SIZE (e.clientY - (rect.top + st.position.y)) MAX_SIZE hminmax
      linarith
    · exact mathClamp_le _ _ _ hminmax
  · rw [← hsz]
    simp only
    split_ifs with h
    · linarith
    · linarith
  · rw [← hsz]
    simp only
    split_ifs with h
    · linarith
    · linarith

/-- Witness for C2: resize in the 800x450 container from position (100,100)
with the pointer at (700,500) publishes size (600,350) without moving the
position. -/
theorem resize_size_clamped_witness :
    (⟨100, 100⟩ : Position) = resizeExampleState.position ∧
    ({ resizeExampleState with size := ⟨600, 350⟩ } : GestureState).position =
      resizeExampleState.position ∧
    MIN_SIZE ≤ (⟨600, 350⟩ : Size).width ∧ (⟨600, 350⟩ : Size).width ≤ MAX_SIZE ∧
    MIN_SIZE ≤ (⟨600, 350⟩ : Size).height ∧ (⟨600, 350⟩ : Size).height ≤ MAX_SIZE ∧
    resizeExampleState.position.x + (⟨600, 350⟩ : Size).width ≤ exampleRect.width ∧
    resizeExampleState.position.y + (⟨600, 350⟩ : Size).height ≤ exampleRect.height :=
  resize_size_clamped resizeExampleState none ⟨700, 500⟩ exampleRect
    { resizeExampleState with size := ⟨600, 350⟩ } ⟨100, 100⟩ ⟨600, 350⟩
    rfl rfl rfl
    (by norm_num [resizeExampleState, exampleRect, MIN_SIZE])
    (by norm_num [resizeExampleState, exampleRect, MIN_SIZE])
    (by norm_num [handleMouseMove, resizeExampleState, exampleRect, Math.max, Math.min,
      Option.orElse, MIN_SIZE, MAX_SIZE])

/-- Drag state whose cached container rect is zero-sized (width 0, height 0). -/
def zeroSizedDragState : GestureState :=
  { position := ⟨50, 50⟩
    size := ⟨200, 200⟩
    isDragging := true
    isResizing := false
    dragOffset := ⟨0, 0⟩
    containerRect := some ⟨0, 0, 0, 0⟩ }

/-- C7 counterexample: with a zero-sized container rect a pointer-move during
a drag is NOT a no-op — the handler still computes and publishes an update
(the position clamped to (0,0)), contradicting the claim that a zero-sized
container makes the update a silently skipped no-op. -/
theorem zero_sized_container_counterexample :
    handleMouseMove zeroSizedDragState none ⟨300, 300⟩ =
      some ({ zeroSizedDragState with position := ⟨0, 0⟩ }, ⟨0, 0⟩, ⟨200, 200⟩) := by
  norm_num [handleMouseMove, zeroSizedDragState, Math.max, Math.min, Option.orElse]

/-- C7 (amended): a pointer-move during a gesture is a no-op exactly when no
container bounds are obtainable — no rect is cached and the container
element is unavailable; a zero-sized rect does not trigger the skip. -/
theorem unavailable_container_noop :
    ∀ (st : GestureState) (e : MouseEvent),
      st.containerRect = none →
      handleMouseMove st none e = none := by
  intro st e h
  cases hd : st.isDragging <;> cases hr : st.isResizing <;>
    simp [handleMouseMove, h, hd, hr, Option.orElse]

/-- Drag state with no cached container rect. -/
def noRectDragState : GestureState :=
  { position := ⟨50, 50⟩
    size := ⟨200, 200⟩
    isDragging := true
    isResizing := false
    dragOffset := ⟨0, 0⟩
    containerRect := none }

/-- Witness for the amended C7 at a concrete gesture state. -/
theorem unavailable_container_noop_witness :
    handleMouseMove noRectDragState none ⟨300, 300⟩ = none :=
  unavailable_container_noop noRectDragState ⟨300, 300⟩ rfl

/-- A stroke command recorded by the renderer: color, line width, and which
shape path is stroked (ellipse outline for circle, rectangle outline for
rectangle). -/
structure StrokeOp where
  color : String
  lineWidth : ℚ
  shape : Shape
deriving DecidableEq

/-- Everything the overlay-drawing step of the compositor computes on one
frame: whether an elliptical clip was applied, the source crop rectangle of
the camera frame, the destination rectangle on the canvas, and the stroke
command, if any. -/
structure OverlayRender where
  clipped : Bool
  srcX : ℚ
  srcY : ℚ
  srcW : ℚ
  srcH : ℚ
  camX : ℚ
  camY : ℚ
  camW : ℚ
  camH : ℚ
  stroke : Option StrokeOp
deriving DecidableEq

/-- The camera-overlay part of one `draw` invocation of VideoCompositor.start
(src/unnamed/part_000 lines 54-112).  Returns `none` when the overlay is not
drawn (hidden, or camera frame not decodable), otherwise the computed crop,
destination rectangle and stroke. -/
def drawOverlay (config : OverlayConfig) (cameraReady : Bool)
    (screenWidth screenHeight containerWidth containerHeight vidW vidH : ℚ) :
    Option OverlayRender :=
  if config.isVisible && cameraReady then
    let scaleX := screenWidth / containerWidth
    let scaleY := screenHeight / containerHeight
    let camX := config.position.x * scaleX
    let camY := config.position.y * scaleY
    let camW := config.size.width * scaleX
    let camH := config.size.height * scaleY
    let zoom := Math.max 1 config.zoomLevel
    let srcW := vidW / zoom
    let srcH := vidH / zoom
    let srcX := (vidW - srcW) / 2
    let srcY := (vidH - srcH) / 2
    let stroke :=
      if config.borderWidth > 0 then
        some (⟨config.borderColor, config.borderWidth * scaleX, config.shape⟩ : StrokeOp)
      else none
    some
      { clipped := config.shape == Shape.circle
        srcX := srcX, srcY := srcY, srcW := srcW, srcH := srcH
        camX := camX, camY := camY, camW := camW, camH := camH
        stroke := stroke }
  else none

/-- The outcome of one full `draw` invocation (src/unnamed/part_000 lines
25-115) once the loop is past the skip checks: the canvas is resized to the
native screen-video resolution and the overlay step runs.  `none` models the
skip-frame path (screen video not yet decodable). -/
structure DrawResult where
  canvasWidth : ℚ
  canvasHeight : ℚ
  overlay : Option OverlayRender
deriving DecidableEq

/-- One `draw` invocation of VideoCompositor.start. -/
def draw (config : OverlayConfig) (screenReady : Bool) (screenWidth screenHeight : ℚ)
    (cameraReady : Bool) (vidW vidH containerWidth containerHeight : ℚ) :
    Option DrawResult :=
  if !screenReady then none
  else
    some
      { canvasWidth := screenWidth
        canvasHeight := screenHeight
        overlay := drawOverlay config cameraReady screenWidth screenHeight
          containerWidth containerHeight vidW vidH }

/-- The overlay configuration of the zoom example: zoomLevel 2, the other
fields at their defaults from src/constants.ts. -/
def zoomExampleConfig : OverlayConfig :=
  { shape := Shape.circle
    position := ⟨50, 50⟩
    size := ⟨200, 200⟩
    isVisible := true
    borderColor := "#3b82f6"
    borderWidth := 4
    zoomLevel := 2 }

/-- The overlay render produced from `zoomExampleConfig` with a 1600x900
screen, an 800x450 container and a 1280x720 camera. -/
def zoomExampleOverlay : OverlayRender :=
  { clipped := true
    srcX := 320, srcY := 180, srcW := 640, srcH := 360
    camX := 100, camY := 100, camW := 400, camH := 400
    stroke := some ⟨"#3b82f6", 8, Shape.circle⟩ }

/-- C3: whenever the overlay is drawn, the source crop of the camera frame
has width `nativeW / max 1 zoomLevel`, height `nativeH / max 1 zoomLevel`
and centered origin; with zoomLevel 2 and a 1280x720 camera the crop is
640x360 at (320,180). -/
theorem zoom_crop_centered :
    (∀ (config : OverlayConfig) (cameraReady : Bool)
        (sW sH cw ch vW vH : ℚ) (ov : OverlayRender),
        drawOverlay config cameraReady sW sH cw ch vW vH = some ov →
        ov.srcW = vW / max 1 config.zoomLevel ∧
        ov.srcH = vH / max 1 config.zoomLevel ∧
        ov.srcX = (vW - ov.srcW) / 2 ∧
        ov.srcY = (vH - ov.srcH) / 2) ∧
    drawOverlay zoomExampleConfig true 1600 900 800 450 1280 720 =
      some zoomExampleOverlay := by
  constructor
  · intro config cameraReady sW sH cw ch vW vH ov h
    simp only [drawOverlay] at h
    split at h
    · simp only [Option.some.injEq] at h
      subst h
      simp [Math.max_eq]
    · simp at h
  · norm_num [drawOverlay, zoomExampleConfig, zoomExampleOverlay, Math.max]

/-- Witness for C3 at the zoom example. -/
theorem zoom_crop_centered_witness :
    zoomExampleOverlay.srcW = 1280 / max 1 zoomExampleConfig.zoomLevel ∧
    zoomExampleOverlay.srcH = 720 / max 1 zoomExampleConfig.zoomLevel ∧
    zoomExampleOverlay.srcX = (1280 - zoomExampleOverlay.srcW) / 2 ∧
    zoomExampleOverlay.srcY = (720 - zoomExampleOverlay.srcH) / 2 :=
  zoom_crop_centered.1 zoomExampleConfig true 1600 900 800 450 1280 720
    zoomExampleOverlay zoom_crop_centered.2

/-- C5: whenever a frame is drawn, the canvas (surface) is sized to the
screen-video resolution, and the camera destination rectangle is the
configured position and size mapped through `scaleX = surfaceWidth /
containerWidth`, `scaleY = surfaceHeight / containerHeight`. -/
theorem camera_destination_transform :
    ∀ (config : OverlayConfig) (screenReady : Bool) (sW sH : ℚ) (cameraReady : Bool)
      (vW vH cw ch : ℚ) (r : DrawResult) (ov : OverlayRender),
      draw config screenReady sW sH cameraReady vW vH cw ch = some r →
      r.overlay = some ov →
      r.canvasWidth = sW ∧ r.canvasHeight = sH ∧
      ov.camX = config.position.x * (r.canvasWidth / cw) ∧
      ov.camY = config.position.y * (r.canvasHeight / ch) ∧
      ov.camW = config.size.width * (r.canvasWidth / cw) ∧
      ov.camH = config.size.height * (r.canvasHeight / ch) := by
  intro config screenReady sW sH cameraReady vW vH cw ch r ov hr hov
  simp only [draw] at hr
  split at hr
  · simp at hr
  · simp only [Option.some.injEq] at hr
    subst hr
    simp only [drawOverlay] at hov
    split at hov
    · simp only [Option.some.injEq] at hov
      subst hov
      simp
    · simp at hov

/-- Witness for C5 at the zoom example. -/
theorem camera_destination_transform_witness :
    (⟨1600, 900, some zoomExampleOverlay⟩ : DrawResult).canvasWidth = 1600 ∧
    (⟨1600, 900, some zoomExampleOverlay⟩ : DrawResult).canvasHeight = 900 ∧
    zoomExampleOverlay.camX =
      zoomExampleConfig.position.x *
        ((⟨1600, 900, some zoomExampleOverlay⟩ : DrawResult).canvasWidth / 800) ∧
    zoomExampleOverlay.camY =
      zoomExampleConfig.position.y *
        ((⟨1600, 900, some zoomExampleOverlay⟩ : DrawResult).canvasHeight / 450) ∧
    zoomExampleOverlay.camW =
      zoomExampleConfig.size.width *
        ((⟨1600, 900, some zoomExampleOverlay⟩ : DrawResult).canvasWidth / 800) ∧
    zoomExampleOverlay.camH =
      zoomExampleConfig.size.height *
        ((⟨1600, 900, some zoomExampleOverlay⟩ : DrawResult).canvasHeight / 450) :=
  camera_destination_transform zoomExampleConfig true 1600 900 true 1280 720 800 450
    ⟨1600, 900, some zoomExampleOverlay⟩ zoomExampleOverlay
    (by norm_num [draw, drawOverlay, zoomExampleConfig, zoomExampleOverlay, Math.max])
    rfl

/-- The `onWidthChange` intent of the control surface
(src/App.tsx line 273): replaces only the borderWidth field. -/
def setBorderWidth (c : OverlayConfig) (w : ℚ) : OverlayConfig :=
  { c with borderWidth := w }

/-- C6: whenever the overlay is drawn, a stroke command is produced exactly
when `borderWidth > 0`, in `borderColor` with line width
`borderWidth * scaleX` along the configured shape path; consequently
setting borderWidth to 0 removes the stroke and setting it back to 4
restores it with the configured color scaled by the transform. -/
theorem border_stroke_roundtrip :
    (∀ (config : OverlayConfig) (cameraReady : Bool)
        (sW sH cw ch vW vH : ℚ) (ov : OverlayRender),
        drawOverlay config cameraReady sW sH cw ch vW vH = some ov →
        (config.borderWidth = 0 → ov.stroke = none) ∧
        (0 < config.borderWidth →
          ov.stroke = some ⟨config.borderColor, config.borderWidth * (sW / cw),
            config.shape⟩)) ∧
    (∀ (config : OverlayConfig) (cameraReady : Bool) (sW sH cw ch vW vH : ℚ),
        config.isVisible = true → cameraReady = true →
        ∃ ov0 ov4 : OverlayRender,
          drawOverlay (setBorderWidth config 0) cameraReady sW sH cw ch vW vH =
            some ov0 ∧
          ov0.stroke = none ∧
          drawOverlay (setBorderWidth (setBorderWidth config 0) 4) cameraReady
            sW sH cw ch vW vH = some ov4 ∧
          ov4.stroke = some ⟨config.borderColor, 4 * (sW / cw), config.shape⟩) := by
  constructor
  · intro config cameraReady sW sH cw ch vW vH ov h
    simp only [drawOverlay] at h
    split at h
    · simp only [Option.some.injEq] at h
      subst h
      constructor
      · intro h0
        simp [h0]
      · intro hpos
        simp [hpos]
    · simp at h
  · intro config cameraReady sW sH cw ch vW vH hvis hcam
    simp only [drawOverlay, setBorderWidth, hvis, hcam, Bool.and_self, if_true]
    refine ⟨_, _, rfl, ?_, rfl, ?_⟩
    · norm_num
    · norm_num

/-- Witness for C6 at the zoom example (borderWidth 4, scaleX 2). -/
theorem border_stroke_roundtrip_witness :
    (zoomExampleConfig.borderWidth = 0 → zoomExampleOverlay.stroke = none) ∧
    (0 < zoomExampleConfig.borderWidth →
      zoomExampleOverlay.stroke = some ⟨zoomExampleConfig.borderColor,
        zoomExampleConfig.borderWidth * ((1600 : ℚ) / 800), zoomExampleConfig.shape⟩) :=
  border_stroke_roundtrip.1 zoomExampleConfig true 1600 900 800 450 1280 720
    zoomExampleOverlay
    (by norm_num [drawOverlay, zoomExampleConfig, zoomExampleOverlay, Math.max])

namespace VideoCompositor

/-- The scheduling state of the compositor's self-rescheduling draw loop:
the `isActive` flag, whether a draw callback is currently scheduled through
`requestAnimationFrame` (`animationFrameId`), and how many draws have
completed. -/
structure LoopState where
  isActive : Bool
  scheduled : Bool
  drawCount : Nat
deriving DecidableEq

/-- VideoCompositor.stop (src/unnamed/part_000 lines 120-125): clears the
`isActive` flag and cancels the pending animation frame, so no draw callback
remains scheduled. -/
def stop (c : LoopState) : LoopState :=
  { c with isActive := false, scheduled := false }

/-- One animation-frame tick: if a draw callback is scheduled it fires;
the callback returns at once when the flag is inactive (src/unnamed/part_000
line 26), reschedules without drawing when the screen frame is not ready,
and otherwise composes one frame and reschedules. -/
def tick (c : LoopState) (screenReady : Bool) : LoopState :=
  if c.scheduled then
    if !c.isActive then { c with scheduled := false }
    else if !screenReady then { c with scheduled := true }
    else { c with drawCount := c.drawCount + 1, scheduled := true }
  else c

end VideoCompositor

/-- C9 counterexample: stopping an active loop with a pending scheduled tick
leaves no tick scheduled, and the next tick draws nothing — the drawing
surface is frozen as soon as `stop()` returns, contradicting the claim that
cancellation is never immediate and is observed only at the top of the next
scheduled tick. -/
theorem renderer_stop_immediate_counterexample :
    (VideoCompositor.stop ⟨true, true, 5⟩).scheduled = false ∧
    VideoCompositor.tick (VideoCompositor.stop ⟨true, true, 5⟩) true =
      VideoCompositor.stop ⟨true, true, 5⟩ ∧
    (VideoCompositor.tick (VideoCompositor.stop ⟨true, true, 5⟩) true).drawCount = 5 := by
  decide

/-- C9 (amended): `stop()` clears the active flag and also cancels the
pending scheduled tick, so the stopped state is a fixpoint of the tick
relation — no further draw ever occurs after `stop()` returns; the inactive
flag checked at the top of the draw independently guarantees that even a
tick that still fired would not draw. -/
theorem renderer_stop_halts_draws :
    ∀ (c : VideoCompositor.LoopState) (screenReady : Bool),
      (VideoCompositor.stop c).isActive = false ∧
      (VideoCompositor.stop c).scheduled = false ∧
      VideoCompositor.tick (VideoCompositor.stop c) screenReady =
        VideoCompositor.stop c ∧
      (VideoCompositor.tick { c with isActive := false } screenReady).drawCount =
        c.drawCount := by
  intro c screenReady
  refine ⟨rfl, rfl, ?_, ?_⟩
  · simp [VideoCompositor.tick, VideoCompositor.stop]
  · simp only [VideoCompositor.tick]
    split <;> simp

/-- A binary segment delivered by the encoder, as a byte sequence.  The
`size` of a blob is its length. -/
abbrev BlobPart := List Nat

/-- The `ondataavailable` listener of the recorder (src/App.tsx lines
122-124): appends the delivered segment to the chunk buffer when its size
is positive, drops it otherwise. -/
def onDataAvailable (chunks : List BlobPart) (data : BlobPart) : List BlobPart :=
  if data.length > 0 then chunks ++ [data] else chunks

/-- The chunk buffer after a sequence of encoder deliveries has been
processed in arrival order. -/
def deliverAll (chunks : List BlobPart) (deliveries : List BlobPart) : List BlobPart :=
  deliveries.foldl onDataAvailable chunks

/-- The `onstop` finalization (src/App.tsx lines 126-130): the artifact blob
is the concatenation of the buffered chunks in order. -/
def finalizeArtifact (chunks : List BlobPart) : BlobPart :=
  chunks.flatten

lemma deliverAll_eq_append_filter (deliveries : List BlobPart) :
    ∀ chunks : List BlobPart,
      deliverAll chunks deliveries =
        chunks ++ deliveries.filter (fun d => decide (0 < d.length)) := by
  induction deliveries with
  | nil => intro chunks; simp [deliverAll]
  | cons d ds ih =>
    intro chunks
    have hstep : deliverAll chunks (d :: ds) = deliverAll (onDataAvailable chunks d) ds :=
      rfl
    rw [hstep, ih]
    by_cases h : 0 < d.length
    · simp [onDataAvailable, h, List.filter_cons]
    · simp [onDataAvailable, h, List.filter_cons]

/-- C4: processing encoder deliveries appends exactly the nonzero-length
segments to the buffer in arrival order (zero-length segments dropped,
nothing reordered or deduplicated), and the finalized artifact is the
concatenation of the buffered segments in that order. -/
theorem chunk_buffer_in_order :
    (∀ (chunks deliveries : List BlobPart),
        deliverAll chunks deliveries =
          chunks ++ deliveries.filter (fun d => decide (0 < d.length))) ∧
    (∀ deliveries : List BlobPart,
        finalizeArtifact (deliverAll [] deliveries) =
          (deliveries.filter (fun d => decide (0 < d.length))).flatten) := by
  constructor
  · intro chunks deliveries
    exact deliverAll_eq_append_filter deliveries chunks
  · intro deliveries
    rw [finalizeArtifact, deliverAll_eq_append_filter]
    simp

/-- The state of the `MediaRecorder` bound to the session stream: the code
only distinguishes `inactive` from the active states, and `recording` is the
only active state the session ever puts the recorder in. -/
inductive RecorderState
  | recording
  | inactive
deriving DecidableEq

/-- The stop-relevant state of the recording session: the recorder ref
(`none` before any recording ever started, i.e. session `Idle` with no
recorder) and how many `onstop` finalizations have been triggered. -/
structure RecordingSession where
  mediaRecorder : Option RecorderState
  finalizations : Nat
deriving DecidableEq

/-- `handleStopRecording` (src/App.tsx lines 166-170): calls
`recorder.stop()` only when a recorder exists and its state is not
`inactive`.  Per the platform contract, `MediaRecorder.stop()` moves the
recorder to `inactive` and fires exactly one `onstop` notification, counted
here as one finalization. -/
def handleStopRecording (s : RecordingSession) : RecordingSession :=
  match s.mediaRecorder with
  | some RecorderState.recording =>
      { mediaRecorder := some RecorderState.inactive,
        finalizations := s.finalizations + 1 }
  | _ => s

/-- C8: a stop request when the session is not Live (no recorder ever
created, or the recorder already inactive) changes nothing and triggers no
finalization; stopping is idempotent, so stopping twice in a row triggers at
most one finalization. -/
theorem stop_request_reentrant :
    (∀ s : RecordingSession,
        s.mediaRecorder ≠ some RecorderState.recording →
        handleStopRecording s = s) ∧
    (∀ s : RecordingSession,
        handleStopRecording (handleStopRecording s) = handleStopRecording s) ∧
    (∀ s : RecordingSession,
        (handleStopRecording (handleStopRecording s)).finalizations ≤
          s.finalizations + 1) := by
  refine ⟨?_, ?_, ?_⟩
  · intro s h
    unfold handleStopRecording
    match hs : s.mediaRecorder with
    | some RecorderState.recording => exact absurd hs h
    | some RecorderState.inactive => simp [hs]
    | none => simp [hs]
  · intro s
    unfold handleStopRecording
    match hs : s.mediaRecorder with
    | some RecorderState.recording => simp [hs]
    | some RecorderState.inactive => simp [hs]
    | none => simp [hs]
  · intro s
    unfold handleStopRecording
    match hs : s.mediaRecorder with
    | some RecorderState.recording => simp [hs]
    | some RecorderState.inactive => simp [hs]
    | none => simp [hs]

/-- Witness for C8: stopping a session that never started (no recorder,
zero finalizations) is a no-op. -/
theorem stop_request_reentrant_witness :
    (⟨none, 0⟩ : RecordingSession).mediaRecorder ≠ some RecorderState.recording ∧
    handleStopRecording ⟨none, 0⟩ = (⟨none, 0⟩ : RecordingSession) :=
  ⟨by decide, stop_request_reentrant.1 ⟨none, 0⟩ (by decide)⟩

/-- `updateOverlayConfig` (src/App.tsx lines 185-187): the functional update
the gesture controller publishes into the shared config — it spreads the
previous record and replaces only position and size. -/
def updateOverlayConfig (prev : OverlayConfig) (pos : Position) (sz : Size) :
    OverlayConfig :=
  { prev with position := pos, size := sz }

/-- C10: a gesture-published config update sets position and size and leaves
shape, isVisible, borderColor, borderWidth and zoomLevel unchanged. -/
theorem gesture_update_frame :
    ∀ (prev : OverlayConfig) (pos : Position) (sz : Size),
      (updateOverlayConfig prev pos sz).position = pos ∧
      (updateOverlayConfig prev pos sz).size = sz ∧
      (updateOverlayConfig prev pos sz).shape = prev.shape ∧
      (updateOverlayConfig prev pos sz).isVisible = prev.isVisible ∧
      (updateOverlayConfig prev pos sz).borderColor = prev.borderColor ∧
      (updateOverlayConfig prev pos sz).borderWidth = prev.borderWidth ∧
      (updateOverlayConfig prev pos sz).zoomLevel = prev.zoomLevel := by
  intro prev pos sz
  exact ⟨rfl, rfl, rfl, rfl, rfl, rfl, rfl⟩

end OmniRecord
